import Mathlib

/-!
Verification development for the convolut-mcp server (a Model Context Protocol
adapter for the Convolut REST API). The JavaScript sources are shallowly
embedded as executable Lean definitions: dynamic argument objects become
structures of Option fields, promise rejection becomes Except, and the
outcome of the single outbound HTTPS call of each handler is passed in as an
explicit Except value. JavaScript truthiness is modelled explicitly where the
code branches on it (numbers are falsy at 0, strings at "", absent fields are
falsy; typeof guards hold by the typing of the embedding). JSON.stringify of
result payloads is modelled by explicit string renderings, since no property
below depends on the concrete JSON text.
-/

set_option maxRecDepth 8192

deriving instance DecidableEq for Except

namespace Convolut

/-! String helpers, implemented by structural recursion over the character
list so that every definition evaluates inside the kernel -/

/-- Whitespace trim over the character list, standing in for the trim method. -/
def jsTrim (s : String) : String :=
  String.mk (((s.data.dropWhile Char.isWhitespace).reverse.dropWhile
    Char.isWhitespace).reverse)

/-- Prefix test over the character lists, standing in for startsWith. -/
def strStartsWith (s pre : String) : Bool :=
  pre.data.isPrefixOf s.data

/-- Removal of the first occurrence of a pattern from a character list. -/
def removeFirstOcc (pat : List Char) : List Char → List Char
  | [] => []
  | c :: cs =>
      if pat.isPrefixOf (c :: cs) then (c :: cs).drop pat.length
      else c :: removeFirstOcc pat cs

/-! JavaScript truthiness and defaulting helpers -/

/-- Truthiness of an optional string: absent and empty strings are falsy. -/
def jsStrTruthy : Option String → Bool
  | none => false
  | some s => s != ""

/-- Truthiness of an optional number: absent and 0 are falsy. -/
def jsNumTruthy : Option Int → Bool
  | none => false
  | some n => n != 0

/-- The expression (s or d) on strings: d when s is absent or empty. -/
def jsOrStr : Option String → String → String
  | none, d => d
  | some s, d => if s == "" then d else s

/-- The expression (n or d) on numbers: d when n is absent or 0. -/
def jsOrInt : Option Int → Int → Int
  | none, d => d
  | some n, d => if n == 0 then d else n

/-- Rendering of a boolean by the JavaScript toString method. -/
def jsBoolStr (b : Bool) : String := if b then "true" else "false"

/-! Data model: the Context entity (types/convolut.cjs) -/

/-- A file attachment of a context. -/
structure FileAtt where
  name : String
  url : String
  ftype : String
deriving Repr, DecidableEq

/-- A stored context entry as returned by the remote API. -/
structure ConvContext where
  id : String
  title : String
  content : String
  tags : List String
  category : String
  is_favorite : Bool
  word_count : Nat
deriving Repr, DecidableEq

/-- The two shapes the remote list endpoint may answer with: a bare array of
contexts, or a paginated envelope object whose fields may each be absent. -/
inductive ListResponse where
  | bare (contexts : List ConvContext)
  | envelope (items : Option (List ConvContext))
      (total_count : Option Nat) (limit : Option Nat) (offset : Option Nat)
deriving Repr, DecidableEq

/-- Reading the property named items off a list response: a bare array has no
such property (undefined). -/
def ListResponse.itemsField : ListResponse → Option (List ConvContext)
  | .bare _ => none
  | .envelope items _ _ _ => items

/-- Reading the property named total_count off a list response. -/
def ListResponse.totalField : ListResponse → Option Nat
  | .bare _ => none
  | .envelope _ tc _ _ => tc

/-- Reading the property named limit off a list response. -/
def ListResponse.limitField : ListResponse → Option Nat
  | .bare _ => none
  | .envelope _ _ lim _ => lim

/-- Reading the property named offset off a list response. -/
def ListResponse.offsetField : ListResponse → Option Nat
  | .bare _ => none
  | .envelope _ _ _ off => off

/-! Transport (utils/api-client.cjs, ConvolutAPIClient.request) -/

/-- An HTTPS response as seen by the transport callback: status code
(0 standing for a missing code), optional Location header, raw body. -/
structure HttpResponse where
  statusCode : Nat
  location : Option String := none
  body : String := ""
deriving Repr, DecidableEq

/-- How a transport call settles. -/
inductive TransportResult where
  | resolved (body : String)
  | apiError (status : Nat) (raw : String)
  | invalidJson (raw : String)
  | tooManyRedirects (status : Nat)
  | malformedRedirect (status : Nat)
deriving Repr, DecidableEq

/-- Redirect statuses recognised by the redirect-following client variant. -/
def isRedirectStatus (s : Nat) : Bool := s == 307 || s == 301 || s == 302

/-- Disposition of one response by ConvolutAPIClient.request in
utils/api-client.cjs: the promise settles on the first response; a missing or
non-2xx status (redirect statuses included) rejects with an API Error, a 2xx
status resolves the parsed JSON body or rejects with an invalid-JSON error.
JSON parsing is abstracted by the parseOk predicate. -/
def requestDisposition (parseOk : String → Bool) (res : HttpResponse) : TransportResult :=
  if res.statusCode == 0 || res.statusCode < 200 || 300 ≤ res.statusCode then
    .apiError res.statusCode res.body
  else if parseOk res.body then .resolved res.body
  else .invalidJson res.body

/-- Pathname plus search of a URL string: everything from the first slash
after the scheme and host. -/
def pathOfUrl (u : String) : String :=
  let rest := if strStartsWith u "https://" then String.mk (u.data.drop 8)
              else if strStartsWith u "http://" then String.mk (u.data.drop 7) else u
  let tail := rest.data.dropWhile (fun c => c != '/')
  match tail with
  | [] => "/"
  | _ => String.mk tail

/-- Resolution of a Location header against the original host, as in the
redirect-following client variant: absolute URLs keep their own path, others
resolve against the host root. -/
def resolveLocationPath (loc : String) : String :=
  if strStartsWith loc "http" then pathOfUrl loc
  else if strStartsWith loc "/" then loc
  else "/" ++ loc

/-- First-occurrence removal of the substring /v1, as done by the expression
replace of the redirect-following client when it recurses. -/
def stripFirstV1 (s : String) : String :=
  String.mk (removeFirstOcc "/v1".data s.data)

/-- The redirect-following request variant found in the repository (the FIXED
ConvolutAPIClient.request): on 301, 302 or 307 with redirect budget left it
issues one request to the resolved Location; when that response redirects
again and more than one unit of budget remains it recurses on the same target
with the budget decremented, otherwise the second response settles the call
like a plain response. The network is abstracted as a map from the full
request path (the base path /v1 plus endpoint) to the response. -/
def fixedRequest (net : String → HttpResponse) (parseOk : String → Bool) :
    Nat → String → TransportResult
  | 0, endpoint =>
    let res := net ("/v1" ++ endpoint)
    if isRedirectStatus res.statusCode then .tooManyRedirects res.statusCode
    else requestDisposition parseOk res
  | m + 1, endpoint =>
    let res := net ("/v1" ++ endpoint)
    if isRedirectStatus res.statusCode then
      match res.location with
      | none => .malformedRedirect res.statusCode
      | some loc =>
        let rPath := resolveLocationPath loc
        let res2 := net rPath
        if isRedirectStatus res2.statusCode && decide (0 < m) then
          fixedRequest net parseOk m (stripFirstV1 rPath)
        else requestDisposition parseOk res2
    else requestDisposition parseOk res

/-- A network on which every path answers 307 with a Location pointing back
into the API: an unbounded redirect chain. -/
def loopNet : String → HttpResponse :=
  fun _ => { statusCode := 307, location := some "/v1/loop", body := "redirected" }

/-! Remote operations client: query-string construction
(utils/api-client.cjs, ConvolutAPIClient.listContexts) -/

/-- Validated search parameters handed to listContexts. The search field is
set only by the search handler; the wired listContexts never reads it. -/
structure ListParams where
  limit : Option Int := none
  offset : Option Int := none
  contain : Option String := none
  search : Option String := none
  category : Option String := none
  tags : Option (List String) := none
  fromDate : Option String := none
  toDate : Option String := none
  is_favorite : Option Bool := none
deriving Repr, DecidableEq

/-- Conditional append of a numeric query parameter: appended only when the
value is truthy (present and nonzero). -/
def appendNumParam (key : String) : Option Int → List (String × String)
  | some n => if n != 0 then [(key, toString n)] else []
  | none => []

/-- Conditional append of a string query parameter: appended only when the
value is truthy (present and nonempty). -/
def appendStrParam (key : String) : Option String → List (String × String)
  | some s => if s != "" then [(key, s)] else []
  | none => []

/-- Conditional append of the tags parameter: appended when the array is
present and nonempty, comma-joined. -/
def appendTagsParam : Option (List String) → List (String × String)
  | some ts => if ts.length != 0 then [("tags", String.intercalate "," ts)] else []
  | none => []

/-- Conditional append of the is_favorite parameter: appended whenever the
value is defined, including false. -/
def appendFavParam : Option Bool → List (String × String)
  | some b => [("is_favorite", jsBoolStr b)]
  | none => []

/-- Query parameters built by ConvolutAPIClient.listContexts in
utils/api-client.cjs, in source order. Note that the search field of the
parameters is never consulted. -/
def listContextsQuery (p : ListParams) : List (String × String) :=
  appendNumParam "limit" p.limit ++ appendNumParam "offset" p.offset ++
  appendStrParam "contain" p.contain ++ appendStrParam "category" p.category ++
  appendTagsParam p.tags ++ appendStrParam "from" p.fromDate ++
  appendStrParam "to" p.toDate ++ appendFavParam p.is_favorite

/-- Rendering of the query parameters as a query string (percent-encoding is
immaterial to every property below and is not modelled). -/
def renderQuery (q : List (String × String)) : String :=
  String.intercalate "&" (q.map (fun kv => kv.1 ++ "=" ++ kv.2))

/-- The endpoint string produced by listContexts. -/
def listContextsEndpoint (p : ListParams) : String :=
  let q := renderQuery (listContextsQuery p)
  "/contexts" ++ (if q == "" then "" else "?" ++ q)

/-! Tool results (the uniform envelope every handler returns) -/

/-- A content block of a tool result. -/
inductive ContentBlock where
  | text (s : String)
deriving Repr, DecidableEq

/-- The uniform tool-result envelope. Success results in the source omit the
isError key, which is modelled as false. -/
structure ToolResult where
  content : List ContentBlock
  isError : Bool := false
deriving Repr, DecidableEq

/-- An error-flagged tool result with one text block. -/
def errResult (msg : String) : ToolResult :=
  { content := [.text msg], isError := true }

/-- A success tool result with one text block. -/
def okResult (msg : String) : ToolResult :=
  { content := [.text msg] }

/-- A tool result consisting of exactly one text block. -/
def singleTextBlock (r : ToolResult) : Prop :=
  ∃ s, r.content = [ContentBlock.text s]

/-! Validation helpers shared by the context tools
(tools/contexts.cjs and tools/contexts-fixed.cjs, identical in both) -/

/-- Raw arguments of list_contexts. -/
structure ListArgs where
  limit : Option Int := none
  offset : Option Int := none
  contain : Option String := none
  category : Option String := none
  tags : Option (List String) := none
  fromDate : Option String := none
  toDate : Option String := none
  is_favorite : Option Bool := none
deriving Repr, DecidableEq

/-- validateContextSearch: bounds-checks limit and offset when present, then
copies the truthy filters into the outgoing parameters. -/
def validateContextSearch (args : ListArgs) : Except String ListParams :=
  if args.limit.any (fun n => n < 1 || 100 < n) then
    .error "limit must be a number between 1 and 100"
  else if args.offset.any (fun o => o < 0) then
    .error "offset must be a non-negative number"
  else .ok {
    limit := args.limit
    offset := args.offset
    contain := if jsStrTruthy args.contain then args.contain else none
    category := if jsStrTruthy args.category then args.category else none
    tags := args.tags
    fromDate := if jsStrTruthy args.fromDate then args.fromDate else none
    toDate := if jsStrTruthy args.toDate then args.toDate else none
    is_favorite := args.is_favorite }

/-- Arguments carrying only a context id (get_context, delete_context,
get_raw_url). -/
structure ContextIdArgs where
  context_id : Option String := none
deriving Repr, DecidableEq

/-- validateContextId: the id must be present and truthy (the empty string is
falsy and is rejected by the same message). -/
def validateContextId : Option String → Except String String
  | some s =>
      if s == "" then .error "context_id is required and must be a string"
      else .ok s
  | none => .error "context_id is required and must be a string"

/-- Raw arguments of create_context. -/
structure CreateContextArgs where
  title : Option String := none
  content : Option String := none
  tags : Option (List String) := none
  category : Option String := none
  is_favorite : Option Bool := none
  files : Option (List FileAtt) := none
deriving Repr, DecidableEq

/-- The normalized payload sent to the remote create endpoint. -/
structure CreateData where
  title : String
  content : String
  category : String
  is_favorite : Bool
  tags : Option (List String) := none
  files : Option (List FileAtt) := none
deriving Repr, DecidableEq

/-- validateCreateContext: title and content must be present, truthy and not
whitespace-only; category defaults to other and is_favorite to false; tags
and files are copied when they are arrays. No upper bound on the title length
is checked. -/
def validateCreateContext (args : CreateContextArgs) : Except String CreateData :=
  if !(jsStrTruthy args.title) || jsTrim (args.title.getD "") == "" then
    .error "title is required and must be a non-empty string"
  else if !(jsStrTruthy args.content) || jsTrim (args.content.getD "") == "" then
    .error "content is required and must be a non-empty string"
  else .ok {
    title := jsTrim (args.title.getD "")
    content := jsTrim (args.content.getD "")
    category := jsOrStr args.category "other"
    is_favorite := args.is_favorite.getD false
    tags := args.tags
    files := args.files }

/-- Raw arguments of update_context. -/
structure UpdateContextArgs where
  context_id : Option String := none
  title : Option String := none
  content : Option String := none
  tags : Option (List String) := none
  category : Option String := none
  is_favorite : Option Bool := none
  files : Option (List FileAtt) := none
deriving Repr, DecidableEq

/-- The normalized update payload: only the fields that were supplied. -/
structure UpdateData where
  title : Option String := none
  content : Option String := none
  category : Option String := none
  is_favorite : Option Bool := none
  tags : Option (List String) := none
  files : Option (List FileAtt) := none
deriving Repr, DecidableEq

/-- validateUpdateContext: operates on the argument set minus context_id;
title and content, when present, must not be whitespace-only and are trimmed;
category, is_favorite, tags and files are copied when defined. An empty
update set passes and yields an empty payload. -/
def validateUpdateContext (updates : UpdateContextArgs) : Except String UpdateData :=
  if updates.title.any (fun t => jsTrim t == "") then
    .error "title must be a non-empty string"
  else if updates.content.any (fun c => jsTrim c == "") then
    .error "content must be a non-empty string"
  else .ok {
    title := updates.title.map jsTrim
    content := updates.content.map jsTrim
    category := updates.category
    is_favorite := updates.is_favorite
    tags := updates.tags
    files := updates.files }

/-! Renderings standing in for JSON.stringify of result payloads -/

/-- Rendering of one context. -/
def renderContext (c : ConvContext) : String :=
  "id=" ++ c.id ++ " title=" ++ c.title ++ " content=" ++ c.content ++
  " tags=" ++ String.intercalate "," c.tags ++ " category=" ++ c.category ++
  " is_favorite=" ++ jsBoolStr c.is_favorite ++ " word_count=" ++ toString c.word_count

/-- Rendering of a list of contexts. -/
def renderContexts (l : List ConvContext) : String :=
  String.intercalate "; " (l.map renderContext)

/-! The list_contexts handler, FIXED version (tools/contexts-fixed.cjs):
handles both response shapes -/

/-- Normalized items: the response itself when it is an array, otherwise its
items field or the empty list. -/
def normalizedItems : ListResponse → List ConvContext
  | .bare l => l
  | .envelope items _ _ _ => items.getD []

/-- Normalized total: the array length when the response is an array,
otherwise its total_count field or 0. -/
def normalizedTotal : ListResponse → Nat
  | .bare l => l.length
  | .envelope _ tc _ _ => tc.getD 0

/-- Normalization of either list-response shape to an items/total pair, as the
specification words it (section 4.2), stated independently of the handler. -/
def specListNormalization : ListResponse → List ConvContext × Nat
  | .bare l => (l, l.length)
  | .envelope items tc _ _ => (items.getD [], tc.getD 0)

/-- The pagination payload built by the FIXED handleListContexts. -/
structure ListPayload where
  contexts : List ConvContext
  total : Nat
  limit : Int
  offset : Int
  hasMore : Bool
deriving Repr, DecidableEq

/-- The payload computation of the FIXED handleListContexts: normalize the
response shape, default limit to 20 and offset to 0 from the request
parameters, and compute hasMore as offset plus returned count less than the
total. -/
def listContextsPayload (p : ListParams) (resp : ListResponse) : ListPayload :=
  let contexts := normalizedItems resp
  let totalCount := normalizedTotal resp
  let lim := jsOrInt p.limit 20
  let off := jsOrInt p.offset 0
  { contexts := contexts
    total := totalCount
    limit := lim
    offset := off
    hasMore := decide (off + (contexts.length : Int) < (totalCount : Int)) }

/-- Rendering of the list payload. -/
def renderListPayload (p : ListPayload) : String :=
  "contexts=" ++ renderContexts p.contexts ++ " total=" ++ toString p.total ++
  " limit=" ++ toString p.limit ++ " offset=" ++ toString p.offset ++
  " hasMore=" ++ jsBoolStr p.hasMore

/-- handleListContexts (FIXED version, tools/contexts-fixed.cjs): validate,
call the list operation, and wrap the normalized pagination payload; every
failure is caught into an error-flagged result. -/
def handleListContexts (args : ListArgs) (remote : Except String ListResponse) : ToolResult :=
  match validateContextSearch args with
  | .error e => errResult ("Error listing contexts: " ++ e)
  | .ok p =>
    match remote with
    | .error e => errResult ("Error listing contexts: " ++ e)
    | .ok resp => okResult (renderListPayload (listContextsPayload p resp))

/-- Comparison of a number with a possibly absent number, as JavaScript
evaluates it: any comparison with undefined is false. -/
def jsLtOpt (a : Nat) : Option Nat → Bool
  | some b => a < b
  | none => false

/-- The pagination payload built by the plain handleListContexts of
tools/contexts.cjs, whose fields come from the response envelope. -/
structure OldListPayload where
  contexts : List ConvContext
  total : Option Nat
  limit : Option Nat
  offset : Option Nat
  hasMore : Bool
deriving Repr, DecidableEq

/-- Rendering of the old list payload. -/
def renderOldListPayload (p : OldListPayload) : String :=
  "contexts=" ++ renderContexts p.contexts ++ " hasMore=" ++ jsBoolStr p.hasMore

/-- handleListContexts, plain version (tools/contexts.cjs, the module the
server wires): reads the items, total_count, limit and offset fields straight
off the response. On a bare-array response the items property is undefined
and reading its length throws a TypeError, which the catch block converts to
an error-flagged result. -/
def handleListContextsOld (args : ListArgs) (remote : Except String ListResponse) : ToolResult :=
  match validateContextSearch args with
  | .error e => errResult ("Error listing contexts: " ++ e)
  | .ok _p =>
    match remote with
    | .error e => errResult ("Error listing contexts: " ++ e)
    | .ok resp =>
      match resp.itemsField with
      | none =>
        errResult "Error listing contexts: Cannot read properties of undefined (reading length)"
      | some items =>
        okResult (renderOldListPayload
          { contexts := items
            total := resp.totalField
            limit := resp.limitField
            offset := resp.offsetField
            hasMore := jsLtOpt (resp.offsetField.getD 0 + items.length) resp.totalField })

/-! Synthesized get-by-id (utils/api-client.cjs, ConvolutAPIClient.getContext) -/

/-- Failure modes of the synthesized get-by-id. -/
inductive GetContextError where
  | apiFail (msg : String)
  | typeErr
  | notFound (contextId : String)
deriving Repr, DecidableEq

/-- Message carried by a get-by-id failure, as the thrown error would show it. -/
def GetContextError.message : GetContextError → String
  | .apiFail m => m
  | .typeErr => "Cannot read properties of undefined (reading find)"
  | .notFound cid => "Context with ID " ++ cid ++ " not found"

/-- The constant parameter object the client passes to the list operation when
synthesizing get-by-id: a limit of 100, nothing else. -/
def getContextFetchParams : ListParams := { limit := some 100 }

/-- ConvolutAPIClient.getContext in utils/api-client.cjs (the wired client):
reads the items property of the list response and searches it for the id. On
a bare-array response (or an envelope without items) the property is
undefined and calling find on it throws a TypeError. -/
def getContext (remote : Except String ListResponse) (contextId : String) :
    Except GetContextError ConvContext :=
  match remote with
  | .error e => .error (.apiFail e)
  | .ok resp =>
    match resp.itemsField with
    | none => .error .typeErr
    | some items =>
      match items.find? (fun item => item.id == contextId) with
      | some c => .ok c
      | none => .error (.notFound contextId)

/-- The FIXED getContext variant found in the repository: normalizes both
response shapes before searching, so every miss is a not-found failure. -/
def fixedGetContext (remote : Except String ListResponse) (contextId : String) :
    Except GetContextError ConvContext :=
  match remote with
  | .error e => .error (.apiFail e)
  | .ok resp =>
    match (normalizedItems resp).find? (fun item => item.id == contextId) with
    | some c => .ok c
    | none => .error (.notFound contextId)

/-- handleGetContext (tools/contexts.cjs): validate the id, run the
synthesized get, wrap or catch. -/
def handleGetContext (args : ContextIdArgs) (remote : Except String ListResponse) : ToolResult :=
  match validateContextId args.context_id with
  | .error e => errResult ("Error retrieving context: " ++ e)
  | .ok cid =>
    match getContext remote cid with
    | .error e => errResult ("Error retrieving context: " ++ e.message)
    | .ok ctx => okResult (renderContext ctx)

/-- handleCreateContext: validate and normalize, send, wrap or catch. -/
def handleCreateContext (args : CreateContextArgs) (remote : Except String ConvContext) : ToolResult :=
  match validateCreateContext args with
  | .error e => errResult ("Error creating context: " ++ e)
  | .ok _data =>
    match remote with
    | .error e => errResult ("Error creating context: " ++ e)
    | .ok ctx => okResult ("Context created successfully " ++ renderContext ctx)

/-- What handleUpdateContext does up to and including the decision to call the
remote: either a validation rejection, or a remote update call with the
context id and the normalized payload. -/
inductive UpdateAction where
  | rejected (msg : String)
  | callRemote (contextId : String) (data : UpdateData)
deriving Repr, DecidableEq

/-- The validation prefix of handleUpdateContext: destructure context_id from
the rest, validate the id, then validate the remaining update fields. -/
def updateContextAction (args : UpdateContextArgs) : UpdateAction :=
  match validateContextId args.context_id with
  | .error e => .rejected e
  | .ok cid =>
    match validateUpdateContext args with
    | .error e => .rejected e
    | .ok d => .callRemote cid d

/-- handleUpdateContext: validation prefix, then the remote call, wrap or
catch. -/
def handleUpdateContext (args : UpdateContextArgs) (remote : Except String ConvContext) : ToolResult :=
  match updateContextAction args with
  | .rejected e => errResult ("Error updating context: " ++ e)
  | .callRemote _ _ =>
    match remote with
    | .error e => errResult ("Error updating context: " ++ e)
    | .ok ctx => okResult ("Context updated successfully " ++ renderContext ctx)

/-- handleDeleteContext: validate the id, delete, wrap or catch. -/
def handleDeleteContext (args : ContextIdArgs) (remote : Except String Unit) : ToolResult :=
  match validateContextId args.context_id with
  | .error e => errResult ("Error deleting context: " ++ e)
  | .ok cid =>
    match remote with
    | .error e => errResult ("Error deleting context: " ++ e)
    | .ok _ => okResult ("Context deleted successfully " ++ cid)

/-! The search handler (tools/ai-tools.cjs, handleSearchContexts) -/

/-- Raw arguments of search_contexts. -/
structure SearchContextsArgs where
  query : Option String := none
  limit : Option Int := none
  category : Option String := none
  tags : Option (List String) := none
deriving Repr, DecidableEq

/-- The parameter object handleSearchContexts hands to listContexts: the query
keyword under the property named search, the limit defaulted to 10, plus
category and tags when given. The wired listContexts reads the property named
contain and never the one named search. -/
def searchParamsOf (args : SearchContextsArgs) : ListParams :=
  { search := args.query
    limit := some (jsOrInt args.limit 10)
    category := if jsStrTruthy args.category then args.category else none
    tags := args.tags }

/-- handleSearchContexts: reject a missing, empty or whitespace-only query,
call the list operation with the search parameters, normalize either response
shape into a result list, wrap or catch. -/
def handleSearchContexts (args : SearchContextsArgs) (remote : Except String ListResponse) : ToolResult :=
  if !(jsStrTruthy args.query) || jsTrim (args.query.getD "") == "" then
    errResult "Error searching contexts: query is required and must be a non-empty string"
  else
    match remote with
    | .error e => errResult ("Error searching contexts: " ++ e)
    | .ok resp =>
      okResult ("Context search completed query=" ++ args.query.getD "" ++
        " results=" ++ renderContexts (normalizedItems resp) ++
        " total_found=" ++ toString (normalizedItems resp).length)

/-! Consolidate and plan handlers (tools/ai-tools.cjs) -/

/-- Raw arguments of consolidate_contexts. -/
structure ConsolidateArgs where
  context_ids : Option (List String) := none
  consolidation_type : Option String := none
  custom_prompt : Option String := none
deriving Repr, DecidableEq

/-- The normalized consolidation request. -/
structure ConsolidateRequest where
  context_ids : List String
  consolidation_type : String
  custom_prompt : Option String := none
deriving Repr, DecidableEq

/-- validateConsolidateRequest: 2 to 10 ids, type summarize or compose, the
custom prompt copied when truthy. -/
def validateConsolidateRequest (args : ConsolidateArgs) : Except String ConsolidateRequest :=
  match args.context_ids with
  | none => .error "context_ids must be an array of 2-10 context IDs"
  | some ids =>
    if ids.length < 2 || 10 < ids.length then
      .error "context_ids must be an array of 2-10 context IDs"
    else if !(["summarize", "compose"].contains (args.consolidation_type.getD "")) then
      .error "consolidation_type must be either \"summarize\" or \"compose\""
    else .ok {
      context_ids := ids
      consolidation_type := args.consolidation_type.getD ""
      custom_prompt := if jsStrTruthy args.custom_prompt then args.custom_prompt else none }

/-- handleConsolidateContexts; the structured remote result is opaque to the
handler and modelled by its serialized form. -/
def handleConsolidateContexts (args : ConsolidateArgs) (remote : Except String String) : ToolResult :=
  match validateConsolidateRequest args with
  | .error e => errResult ("Error consolidating contexts: " ++ e)
  | .ok req =>
    match remote with
    | .error e => errResult ("Error consolidating contexts: " ++ e)
    | .ok result =>
      okResult ("Contexts consolidated successfully " ++ req.consolidation_type ++
        " input_contexts=" ++ toString req.context_ids.length ++ " " ++ result)

/-- Raw arguments of plan_from_contexts. -/
structure PlanArgs where
  context_ids : Option (List String) := none
  planning_prompt : Option String := none
deriving Repr, DecidableEq

/-- The normalized planning request. -/
structure PlanRequest where
  context_ids : List String
  planning_prompt : Option String := none
deriving Repr, DecidableEq

/-- validatePlanRequest: 1 to 20 ids, the planning prompt copied when truthy. -/
def validatePlanRequest (args : PlanArgs) : Except String PlanRequest :=
  match args.context_ids with
  | none => .error "context_ids must be an array of 1-20 context IDs"
  | some ids =>
    if ids.length < 1 || 20 < ids.length then
      .error "context_ids must be an array of 1-20 context IDs"
    else .ok {
      context_ids := ids
      planning_prompt := if jsStrTruthy args.planning_prompt then args.planning_prompt else none }

/-- handlePlanFromContexts. -/
def handlePlanFromContexts (args : PlanArgs) (remote : Except String String) : ToolResult :=
  match validatePlanRequest args with
  | .error e => errResult ("Error generating plan: " ++ e)
  | .ok req =>
    match remote with
    | .error e => errResult ("Error generating plan: " ++ e)
    | .ok result =>
      okResult ("Plan generated successfully from contexts analyzed_contexts=" ++
        toString req.context_ids.length ++ " " ++ result)

/-! Export, raw URL and statistics handlers (tools/export.cjs) -/

/-- Raw arguments of export_contexts. -/
structure ExportContextsArgs where
  context_ids : Option (List String) := none
  format : Option String := none
  include_metadata : Option Bool := none
deriving Repr, DecidableEq

/-- The normalized export request. -/
structure ExportRequest where
  context_ids : List String
  format : String
  include_metadata : Bool
deriving Repr, DecidableEq

/-- validateExportRequest: 1 to 100 ids, format among json, xml, txt and
markdown (an absent or empty format fails the same membership test), metadata
defaulted to true exactly when the field is undefined. -/
def validateExportRequest (args : ExportContextsArgs) : Except String ExportRequest :=
  match args.context_ids with
  | none => .error "context_ids must be an array of 1-100 context IDs"
  | some ids =>
    if ids.length < 1 || 100 < ids.length then
      .error "context_ids must be an array of 1-100 context IDs"
    else if !(["json", "xml", "txt", "markdown"].contains (args.format.getD "")) then
      .error "format must be one of: json, xml, txt, markdown"
    else .ok {
      context_ids := ids
      format := args.format.getD ""
      include_metadata := args.include_metadata.getD true }

/-- handleExportContexts. -/
def handleExportContexts (args : ExportContextsArgs) (remote : Except String String) : ToolResult :=
  match validateExportRequest args with
  | .error e => errResult ("Error exporting contexts: " ++ e)
  | .ok req =>
    match remote with
    | .error e => errResult ("Error exporting contexts: " ++ e)
    | .ok result =>
      okResult ("Contexts exported successfully format=" ++ req.format ++
        " exported_contexts=" ++ toString req.context_ids.length ++
        " include_metadata=" ++ jsBoolStr req.include_metadata ++ " " ++ result)

/-- The structured result of the raw-URL remote operation. -/
structure RawUrlResult where
  raw_url : String
  expires_in_seconds : Nat
deriving Repr, DecidableEq

/-- handleGetRawUrl; the current wall-clock milliseconds are an explicit
input, and the ISO rendering of the expiry instant is abstracted to the
computed millisecond timestamp. -/
def handleGetRawUrl (args : ContextIdArgs) (nowMs : Nat) (remote : Except String RawUrlResult) : ToolResult :=
  match validateContextId args.context_id with
  | .error e => errResult ("Error generating raw URL: " ++ e)
  | .ok cid =>
    match remote with
    | .error e => errResult ("Error generating raw URL: " ++ e)
    | .ok r =>
      okResult ("Raw URL generated successfully context_id=" ++ cid ++
        " raw_url=" ++ r.raw_url ++
        " expires_in_seconds=" ++ toString r.expires_in_seconds ++
        " expires_at_ms=" ++ toString (nowMs + r.expires_in_seconds * 1000))

/-- Raw arguments of get_context_stats. -/
structure StatsArgs where
  date_range : Option String := none
  group_by : Option String := none
deriving Repr, DecidableEq

/-- Incrementing the count of a key in an association list, appending the key
with count 1 on first sight, as the reduce over a plain object does. -/
def bumpCount : List (String × Nat) → String → List (String × Nat)
  | [], key => [(key, 1)]
  | (k, v) :: rest, key =>
      if k == key then (k, v + 1) :: rest else (k, v) :: bumpCount rest key

/-- Counts per distinct category value, in first-appearance order. -/
def countByCategory (items : List ConvContext) : List (String × Nat) :=
  items.foldl (fun acc c => bumpCount acc c.category) []

/-- Counts per distinct tag value; a context contributes to every tag it
carries. -/
def countByTags (items : List ConvContext) : List (String × Nat) :=
  items.foldl (fun acc c => c.tags.foldl bumpCount acc) []

/-- The two favorite buckets. -/
def favoriteBuckets (items : List ConvContext) : List (String × Nat) :=
  [("favorites", (items.filter (fun c => c.is_favorite)).length),
   ("non_favorites", (items.filter (fun c => !c.is_favorite)).length)]

/-- The grouping dispatch of handleGetContextStats: category, favorite and
tags each have a branch; every other value (date included) leaves the
statistics object empty. -/
def statsGroups (groupBy : String) (items : List ConvContext) : List (String × Nat) :=
  if groupBy == "category" then countByCategory items
  else if groupBy == "favorite" then favoriteBuckets items
  else if groupBy == "tags" then countByTags items
  else []

/-- Total word count over the fetched contexts. -/
def totalWords (items : List ConvContext) : Nat :=
  items.foldl (fun s c => s + c.word_count) 0

/-- Rounded mean word count (round half up), zero when no contexts. -/
def avgWords (items : List ConvContext) : Nat :=
  if items.length == 0 then 0
  else (2 * totalWords items + items.length) / (2 * items.length)

/-- The statistics payload. -/
structure StatsPayload where
  total_contexts : Option Nat
  date_range : String
  group_by : String
  statistics : List (String × Nat)
  total_words : Nat
  avg_words_per_context : Nat
deriving Repr, DecidableEq

/-- Success or caught failure of the statistics computation. -/
inductive StatsOutcome where
  | success (p : StatsPayload)
  | failure (msg : String)
deriving Repr, DecidableEq

/-- The constant parameter object handleGetContextStats passes to the list
operation, independent of every argument. -/
def statsFetchParams (_args : StatsArgs) : ListParams := { limit := some 100 }

/-- The computation of handleGetContextStats: destructure the arguments with
defaults 30d and category, fetch, and aggregate. Every branch reads the items
property of the response, so a bare-array response throws a TypeError that
the catch block converts to a failure. The date_range argument is only echoed
into the payload. -/
def statsCore (args : StatsArgs) (remote : Except String ListResponse) : StatsOutcome :=
  let dateRange := args.date_range.getD "30d"
  let groupBy := args.group_by.getD "category"
  match remote with
  | .error e => .failure ("Error generating statistics: " ++ e)
  | .ok resp =>
    match resp.itemsField with
    | none => .failure "Error generating statistics: Cannot read properties of undefined (reading reduce)"
    | some items =>
      .success {
        total_contexts := resp.totalField
        date_range := dateRange
        group_by := groupBy
        statistics := statsGroups groupBy items
        total_words := totalWords items
        avg_words_per_context := avgWords items }

/-- Replacing the echoed date_range field of a statistics outcome. -/
def setStatsDateRange (d : String) : StatsOutcome → StatsOutcome
  | .success p => .success { p with date_range := d }
  | .failure m => .failure m

/-- Rendering of the statistics payload. -/
def renderStatsPayload (p : StatsPayload) : String :=
  "date_range=" ++ p.date_range ++ " group_by=" ++ p.group_by ++
  " statistics=" ++ String.intercalate ","
    (p.statistics.map (fun kv => kv.1 ++ ":" ++ toString kv.2)) ++
  " total_words=" ++ toString p.total_words ++
  " avg_words_per_context=" ++ toString p.avg_words_per_context

/-- handleGetContextStats as a tool result. -/
def handleGetContextStats (args : StatsArgs) (remote : Except String ListResponse) : ToolResult :=
  match statsCore args remote with
  | .failure e => errResult e
  | .success p => okResult (renderStatsPayload p)

/-! The dispatch loop (stdio-client.cjs, handleMCPRequest) -/

/-- The parameter object of a JSON-RPC request; the tool arguments payload is
opaque to the dispatcher and kept as a type parameter. -/
structure RpcParams (γ : Type) where
  name : Option String := none
  arguments : Option γ := none
deriving Repr, DecidableEq

/-- A JSON-RPC request envelope. -/
structure RpcRequest (γ : Type) where
  id : Option Int := none
  method : String
  params : Option (RpcParams γ) := none
deriving Repr, DecidableEq

/-- Bodies of the replies the dispatcher can emit. -/
inductive RpcReplyBody where
  | initResult
  | toolsListResult
  | resourcesListResult
  | callResult (r : ToolResult)
  | pingResult
  | rpcError (code : Int) (msg : String)
deriving Repr, DecidableEq

/-- A reply line, or silence for a notification. -/
inductive RpcReply where
  | message (id : Option Int) (body : RpcReplyBody)
  | noReply
deriving Repr, DecidableEq

/-- The keys of the TOOL_HANDLERS table, in source order. -/
def toolNames : List String :=
  ["list_contexts", "get_context", "create_context", "update_context",
   "delete_context", "search_contexts", "consolidate_contexts",
   "plan_from_contexts", "export_contexts", "get_raw_url", "get_context_stats"]

/-- The tools/call branch of the dispatcher: a falsy tool name (absent params,
absent name, or the empty string) fails with code -32602; a truthy name with
no handler in the table fails with code -32601 carrying the attempted name;
otherwise the handler is invoked on the arguments (defaulted when absent) and
its result, or the message of an escaped exception under code -32603, is
returned. The invoke function supplies the awaited handler outcome. -/
def dispatchToolsCall {γ : Type} [Inhabited γ]
    (invoke : String → γ → Except String ToolResult)
    (requestId : Option Int) (params : Option (RpcParams γ)) : RpcReply :=
  if !(jsStrTruthy (params.bind fun p => p.name)) then
    .message requestId (.rpcError (-32602) "Missing tool name")
  else
    let toolName := (params.bind fun p => p.name).getD ""
    if !(toolNames.contains toolName) then
      .message requestId (.rpcError (-32601) ("Tool not found: " ++ toolName))
    else
      match invoke toolName ((params.bind fun p => p.arguments).getD default) with
      | .ok r => .message requestId (.callResult r)
      | .error msg => .message requestId (.rpcError (-32603) msg)

/-- handleMCPRequest (stdio-client.cjs): the method switch. -/
def handleMCPRequest {γ : Type} [Inhabited γ]
    (invoke : String → γ → Except String ToolResult) (req : RpcRequest γ) : RpcReply :=
  match req.method with
  | "initialize" => .message req.id .initResult
  | "notifications/initialized" => .noReply
  | "tools/list" => .message req.id .toolsListResult
  | "resources/list" => .message req.id .resourcesListResult
  | "tools/call" => dispatchToolsCall invoke req.id req.params
  | "ping" => .message req.id .pingResult
  | other => .message req.id (.rpcError (-32601) ("Method not found: " ++ other))

/-! Concrete fixtures used by counterexamples and witnesses -/

/-- A sample context. -/
def sampleContext : ConvContext :=
  { id := "ctx-1", title := "t1", content := "c1", tags := ["x"],
    category := "work", is_favorite := false, word_count := 3 }

/-- A second sample context. -/
def sampleContextB : ConvContext :=
  { id := "ctx-2", title := "t2", content := "c2", tags := [],
    category := "other", is_favorite := true, word_count := 5 }

/-- A title of 201 characters. -/
def longTitle : String := String.mk (List.replicate 201 'a')

/-- A tools/call request whose params carry the empty string as the tool
name: a present name that matches no registered tool. -/
def emptyNameRequest : RpcRequest Unit :=
  { id := some 7, method := "tools/call", params := some { name := some "" } }

/-! Theorems -/

/-- Helper: pairs appended by appendNumParam carry the given key. -/
theorem appendNumParam_fst {key : String} {o : Option Int} {kv : String × String}
    (h : kv ∈ appendNumParam key o) : kv.1 = key := by
  cases o with
  | none => simp [appendNumParam] at h
  | some n =>
    simp only [appendNumParam] at h
    split at h <;> simp_all

/-- Helper: pairs appended by appendStrParam carry the given key. -/
theorem appendStrParam_fst {key : String} {o : Option String} {kv : String × String}
    (h : kv ∈ appendStrParam key o) : kv.1 = key := by
  cases o with
  | none => simp [appendStrParam] at h
  | some s =>
    simp only [appendStrParam] at h
    split at h <;> simp_all

/-- Helper: pairs appended by appendTagsParam carry the key tags. -/
theorem appendTagsParam_fst {o : Option (List String)} {kv : String × String}
    (h : kv ∈ appendTagsParam o) : kv.1 = "tags" := by
  cases o with
  | none => simp [appendTagsParam] at h
  | some ts =>
    simp only [appendTagsParam] at h
    split at h <;> simp_all

/-- Helper: pairs appended by appendFavParam carry the key is_favorite. -/
theorem appendFavParam_fst {o : Option Bool} {kv : String × String}
    (h : kv ∈ appendFavParam o) : kv.1 = "is_favorite" := by
  cases o with
  | none => simp [appendFavParam] at h
  | some b => simp_all [appendFavParam]

/-- Claim C1, counterexample: the wired transport does not follow redirects.
A 307 response carrying a Location header is rejected as an API Error instead
of being re-issued, and a 307 response without a Location header is rejected
as the same API Error, not as a malformed-redirect error. -/
theorem c1_counterexample :
    requestDisposition (fun _ => true)
        { statusCode := 307, location := some "/contexts?x=1", body := "resp" } =
      .apiError 307 "resp" ∧
    requestDisposition (fun _ => true) { statusCode := 307, location := none, body := "" } ≠
      .malformedRedirect 307 := by
  decide

/-- Claim C1, amended: on 301, 302 or 307 the wired transport never re-issues
the request; it fails at once with an API Error carrying the status code and
raw body. In the redirect-following client variant found in the repository,
an unbounded redirect chain entered with the default budget of 5 also ends in
an API Error carrying the last redirect status, not in a too-many-redirects
error. -/
theorem c1_amended :
    (∀ (parseOk : String → Bool) (res : HttpResponse),
      res.statusCode = 301 ∨ res.statusCode = 302 ∨ res.statusCode = 307 →
      requestDisposition parseOk res = .apiError res.statusCode res.body)
    ∧ (∀ parseOk : String → Bool,
        fixedRequest loopNet parseOk 5 "/contexts" = .apiError 307 "redirected") := by
  constructor
  · intro parseOk res h
    rcases h with h | h | h <;> simp [requestDisposition, h]
  · intro parseOk
    rfl

/-- Claim C1, witness for the amended theorem at a concrete 301 response. -/
theorem c1_amended_witness :
    requestDisposition (fun _ => true) { statusCode := 301, location := none, body := "b" } =
      .apiError 301 "b" ∧
    fixedRequest loopNet (fun _ => true) 5 "/contexts" = .apiError 307 "redirected" :=
  ⟨c1_amended.1 (fun _ => true) { statusCode := 301, location := none, body := "b" }
      (Or.inl rfl),
   c1_amended.2 (fun _ => true)⟩

/-- Claim C3, code bug: a title of 201 characters passes validateCreateContext
and is normalized into the payload sent to the remote, although the tool
schema advertises a maximum title length of 200. The defaults for category
and is_favorite are visible in the accepted payload. -/
theorem c3_long_title_accepted :
    longTitle.length = 201 ∧
    validateCreateContext { title := some longTitle, content := some "body text" } =
      .ok { title := longTitle, content := "body text",
            category := "other", is_favorite := false } := by
  constructor
  · rfl
  · rfl

/-- Claim C4, code bug: the wired getContext throws a TypeError on a
bare-array list response, even when the requested id is present in the array,
instead of returning the entry or a not-found failure; the FIXED client
variant in the repository normalizes both shapes and behaves as the claim
demands. The fetch parameters are the constant limit of 100. -/
theorem c4_bare_array_type_error :
    getContext (.ok (.bare [sampleContext])) "ctx-1" = .error .typeErr ∧
    getContext (.ok (.bare [])) "missing" = .error .typeErr ∧
    fixedGetContext (.ok (.bare [sampleContext])) "ctx-1" = .ok sampleContext ∧
    fixedGetContext (.ok (.bare [])) "missing" = .error (.notFound "missing") ∧
    listContextsQuery getContextFetchParams = [("limit", "100")] := by
  decide

/-- Claim C6, counterexample: a tools/call request whose params carry the
empty string as the tool name is answered with code -32602, although the
empty string is a present name that matches no registered tool, for which the
claim demands code -32601. -/
theorem c6_counterexample :
    handleMCPRequest (fun _ _ => .ok (okResult "ok")) emptyNameRequest =
      .message (some 7) (.rpcError (-32602) "Missing tool name") ∧
    toolNames.contains "" = false ∧
    (-32602 : Int) ≠ -32601 := by
  decide

/-- Claim C7, counterexample: an update_context argument set carrying only
context_id passes validation, so the handler proceeds to the remote call with
an empty update payload and, when the remote echoes a context, returns a
success result rather than failing validation. -/
theorem c7_counterexample :
    updateContextAction { context_id := some "ctx-9" } = .callRemote "ctx-9" {} ∧
    handleUpdateContext { context_id := some "ctx-9" } (.ok sampleContext) =
      okResult ("Context updated successfully " ++ renderContext sampleContext) ∧
    (handleUpdateContext { context_id := some "ctx-9" } (.ok sampleContext)).isError = false := by
  decide

/-- Claim C8, code bug: handleSearchContexts stores the keyword under the
property named search, but the wired listContexts serializes only the
property named contain, so for a valid query the outbound query parameters
are just the limit and the keyword is dropped entirely, even though the
handler accepts the query as valid. -/
theorem c8_search_keyword_dropped :
    searchParamsOf { query := some "machine learning" } =
      { search := some "machine learning", limit := some 10 } ∧
    listContextsQuery (searchParamsOf { query := some "machine learning" }) =
      [("limit", "10")] ∧
    (listContextsQuery (searchParamsOf { query := some "machine learning" })).all
      (fun kv => kv.2 != "machine learning") = true ∧
    (handleSearchContexts { query := some "machine learning" } (.ok (.bare []))).isError
      = false := by
  decide

/-- Claim C2: for every argument set that passes validation, the FIXED
list_contexts handler answers either response shape with the payload obtained
from the spec normalization of the response (the bare array itself with its
length, or the envelope items, empty when absent, with total_count, 0 when
absent) and computes hasMore as offset plus returned count less than the
total; in particular an envelope with total_count 5, offset 0 and two items
yields hasMore true. -/
theorem c2_list_normalization :
    (∀ (args : ListArgs) (p : ListParams) (resp : ListResponse),
      validateContextSearch args = .ok p →
      handleListContexts args (.ok resp) =
        okResult (renderListPayload
          { contexts := (specListNormalization resp).1
            total := (specListNormalization resp).2
            limit := jsOrInt p.limit 20
            offset := jsOrInt p.offset 0
            hasMore := decide (jsOrInt p.offset 0 +
                ((specListNormalization resp).1.length : Int) <
                ((specListNormalization resp).2 : Int)) }))
    ∧ (listContextsPayload {} (.envelope (some [sampleContext, sampleContextB])
        (some 5) (some 20) (some 0))).hasMore = true := by
  constructor
  · intro args p resp hv
    simp only [handleListContexts, hv, listContextsPayload]
    cases resp <;>
      simp [normalizedItems, normalizedTotal, specListNormalization]
  · decide

/-- Claim C2, witness: the empty argument set validates, and the envelope
with total_count 5, offset 0 and two items is answered with hasMore true. -/
theorem c2_list_normalization_witness :
    handleListContexts {} (.ok (.envelope (some [sampleContext, sampleContextB])
        (some 5) (some 20) (some 0))) =
      okResult (renderListPayload
        { contexts := [sampleContext, sampleContextB], total := 5,
          limit := 20, offset := 0, hasMore := true }) :=
  c2_list_normalization.1 {} {} _ rfl

/-- Claim C5: every tool handler, on every argument set and every outcome of
its remote call, returns a tool-result envelope consisting of exactly one
text content block and never propagates a failure past its own boundary
(every handler is a total function into ToolResult); the error flag is set on
every failed remote call, and more precisely the flag is absent exactly on
the full success path, so every failure class the claim names - validation
failure, transport failure, and the synthesized not-found of get_context -
produces an error-flagged result. -/
theorem c5_handlers_return_tool_results :
    ((∀ (a : ListArgs) (r : Except String ListResponse),
        singleTextBlock (handleListContexts a r)) ∧
      (∀ (a : ListArgs) (e : String), (handleListContexts a (.error e)).isError = true) ∧
      ∀ (a : ListArgs) (r : Except String ListResponse),
        (handleListContexts a r).isError = false ↔
          (∃ p, validateContextSearch a = .ok p) ∧ ∃ resp, r = .ok resp) ∧
    ((∀ (a : ListArgs) (r : Except String ListResponse),
        singleTextBlock (handleListContextsOld a r)) ∧
      (∀ (a : ListArgs) (e : String), (handleListContextsOld a (.error e)).isError = true) ∧
      ∀ (a : ListArgs) (r : Except String ListResponse),
        (handleListContextsOld a r).isError = false ↔
          (∃ p, validateContextSearch a = .ok p) ∧
            ∃ resp items, r = .ok resp ∧ resp.itemsField = some items) ∧
    ((∀ (a : ContextIdArgs) (r : Except String ListResponse),
        singleTextBlock (handleGetContext a r)) ∧
      (∀ (a : ContextIdArgs) (e : String), (handleGetContext a (.error e)).isError = true) ∧
      ∀ (a : ContextIdArgs) (r : Except String ListResponse),
        (handleGetContext a r).isError = false ↔
          ∃ cid, validateContextId a.context_id = .ok cid ∧
            ∃ c, getContext r cid = .ok c) ∧
    ((∀ (a : CreateContextArgs) (r : Except String ConvContext),
        singleTextBlock (handleCreateContext a r)) ∧
      (∀ (a : CreateContextArgs) (e : String), (handleCreateContext a (.error e)).isError = true) ∧
      ∀ (a : CreateContextArgs) (r : Except String ConvContext),
        (handleCreateContext a r).isError = false ↔
          (∃ d, validateCreateContext a = .ok d) ∧ ∃ c, r = .ok c) ∧
    ((∀ (a : UpdateContextArgs) (r : Except String ConvContext),
        singleTextBlock (handleUpdateContext a r)) ∧
      (∀ (a : UpdateContextArgs) (e : String), (handleUpdateContext a (.error e)).isError = true) ∧
      ∀ (a : UpdateContextArgs) (r : Except String ConvContext),
        (handleUpdateContext a r).isError = false ↔
          (∃ cid d, updateContextAction a = .callRemote cid d) ∧ ∃ c, r = .ok c) ∧
    ((∀ (a : ContextIdArgs) (r : Except String Unit),
        singleTextBlock (handleDeleteContext a r)) ∧
      (∀ (a : ContextIdArgs) (e : String), (handleDeleteContext a (.error e)).isError = true) ∧
      ∀ (a : ContextIdArgs) (r : Except String Unit),
        (handleDeleteContext a r).isError = false ↔
          (∃ cid, validateContextId a.context_id = .ok cid) ∧ ∃ u, r = .ok u) ∧
    ((∀ (a : SearchContextsArgs) (r : Except String ListResponse),
        singleTextBlock (handleSearchContexts a r)) ∧
      (∀ (a : SearchContextsArgs) (e : String), (handleSearchContexts a (.error e)).isError = true) ∧
      ∀ (a : SearchContextsArgs) (r : Except String ListResponse),
        (handleSearchContexts a r).isError = false ↔
          (!(jsStrTruthy a.query) || (jsTrim (a.query.getD "") == "")) = false ∧
            ∃ resp, r = .ok resp) ∧
    ((∀ (a : ConsolidateArgs) (r : Except String String),
        singleTextBlock (handleConsolidateContexts a r)) ∧
      (∀ (a : ConsolidateArgs) (e : String), (handleConsolidateContexts a (.error e)).isError = true) ∧
      ∀ (a : ConsolidateArgs) (r : Except String String),
        (handleConsolidateContexts a r).isError = false ↔
          (∃ q, validateConsolidateRequest a = .ok q) ∧ ∃ s, r = .ok s) ∧
    ((∀ (a : PlanArgs) (r : Except String String),
        singleTextBlock (handlePlanFromContexts a r)) ∧
      (∀ (a : PlanArgs) (e : String), (handlePlanFromContexts a (.error e)).isError = true) ∧
      ∀ (a : PlanArgs) (r : Except String String),
        (handlePlanFromContexts a r).isError = false ↔
          (∃ q, validatePlanRequest a = .ok q) ∧ ∃ s, r = .ok s) ∧
    ((∀ (a : ExportContextsArgs) (r : Except String String),
        singleTextBlock (handleExportContexts a r)) ∧
      (∀ (a : ExportContextsArgs) (e : String), (handleExportContexts a (.error e)).isError = true) ∧
      ∀ (a : ExportContextsArgs) (r : Except String String),
        (handleExportContexts a r).isError = false ↔
          (∃ q, validateExportRequest a = .ok q) ∧ ∃ s, r = .ok s) ∧
    ((∀ (a : ContextIdArgs) (nowMs : Nat) (r : Except String RawUrlResult),
        singleTextBlock (handleGetRawUrl a nowMs r)) ∧
      (∀ (a : ContextIdArgs) (nowMs : Nat) (e : String),
        (handleGetRawUrl a nowMs (.error e)).isError = true) ∧
      ∀ (a : ContextIdArgs) (nowMs : Nat) (r : Except String RawUrlResult),
        (handleGetRawUrl a nowMs r).isError = false ↔
          (∃ cid, validateContextId a.context_id = .ok cid) ∧ ∃ u, r = .ok u) ∧
    ((∀ (a : StatsArgs) (r : Except String ListResponse),
        singleTextBlock (handleGetContextStats a r)) ∧
      (∀ (a : StatsArgs) (e : String), (handleGetContextStats a (.error e)).isError = true) ∧
      ∀ (a : StatsArgs) (r : Except String ListResponse),
        (handleGetContextStats a r).isError = false ↔
          ∃ p, statsCore a r = .success p) := by
  refine ⟨⟨?_, ?_, ?_⟩, ⟨?_, ?_, ?_⟩, ⟨?_, ?_, ?_⟩, ⟨?_, ?_, ?_⟩, ⟨?_, ?_, ?_⟩,
    ⟨?_, ?_, ?_⟩, ⟨?_, ?_, ?_⟩, ⟨?_, ?_, ?_⟩, ⟨?_, ?_, ?_⟩, ⟨?_, ?_, ?_⟩,
    ⟨?_, ?_, ?_⟩, ⟨?_, ?_, ?_⟩⟩
  · intro a r
    unfold handleListContexts
    repeat' split
    all_goals exact ⟨_, rfl⟩
  · intro a e
    unfold handleListContexts
    repeat' split
    all_goals first | rfl | simp_all [getContext, statsCore]
  · intro a r
    cases hv : validateContextSearch a <;> cases r <;>
      simp [handleListContexts, hv, errResult, okResult]
  · intro a r
    unfold handleListContextsOld
    repeat' split
    all_goals exact ⟨_, rfl⟩
  · intro a e
    unfold handleListContextsOld
    repeat' split
    all_goals first | rfl | simp_all [getContext, statsCore]
  · intro a r
    cases hv : validateContextSearch a with
    | error e => cases r <;> simp [handleListContextsOld, hv, errResult]
    | ok p =>
      cases r with
      | error e => simp [handleListContextsOld, hv, errResult]
      | ok resp =>
        cases hi : resp.itemsField with
        | none => simp [handleListContextsOld, hv, hi, errResult]
        | some items => simp [handleListContextsOld, hv, hi, okResult]
  · intro a r
    unfold handleGetContext
    repeat' split
    all_goals exact ⟨_, rfl⟩
  · intro a e
    unfold handleGetContext
    repeat' split
    all_goals first | rfl | simp_all [getContext, statsCore]
  · intro a r
    cases hv : validateContextId a.context_id with
    | error e => simp [handleGetContext, hv, errResult]
    | ok cid =>
      cases hg : getContext r cid with
      | error ge => simp [handleGetContext, hv, hg, errResult]
      | ok c => simp [handleGetContext, hv, hg, okResult]
  · intro a r
    unfold handleCreateContext
    repeat' split
    all_goals exact ⟨_, rfl⟩
  · intro a e
    unfold handleCreateContext
    repeat' split
    all_goals first | rfl | simp_all [getContext, statsCore]
  · intro a r
    cases hv : validateCreateContext a <;> cases r <;>
      simp [handleCreateContext, hv, errResult, okResult]
  · intro a r
    unfold handleUpdateContext
    repeat' split
    all_goals exact ⟨_, rfl⟩
  · intro a e
    unfold handleUpdateContext
    repeat' split
    all_goals first | rfl | simp_all [getContext, statsCore]
  · intro a r
    cases hu : updateContextAction a <;> cases r <;>
      simp [handleUpdateContext, hu, errResult, okResult]
  · intro a r
    unfold handleDeleteContext
    repeat' split
    all_goals exact ⟨_, rfl⟩
  · intro a e
    unfold handleDeleteContext
    repeat' split
    all_goals first | rfl | simp_all [getContext, statsCore]
  · intro a r
    cases hv : validateContextId a.context_id <;> cases r <;>
      simp [handleDeleteContext, hv, errResult, okResult]
  · intro a r
    unfold handleSearchContexts
    repeat' split
    all_goals exact ⟨_, rfl⟩
  · intro a e
    unfold handleSearchContexts
    repeat' split
    all_goals first | rfl | simp_all [getContext, statsCore]
  · intro a r
    unfold handleSearchContexts
    split
    next h => cases r <;> simp [h, errResult]
    next h => cases r <;> simp [h, errResult, okResult]
  · intro a r
    unfold handleConsolidateContexts
    repeat' split
    all_goals exact ⟨_, rfl⟩
  · intro a e
    unfold handleConsolidateContexts
    repeat' split
    all_goals first | rfl | simp_all [getContext, statsCore]
  · intro a r
    cases hv : validateConsolidateRequest a <;> cases r <;>
      simp [handleConsolidateContexts, hv, errResult, okResult]
  · intro a r
    unfold handlePlanFromContexts
    repeat' split
    all_goals exact ⟨_, rfl⟩
  · intro a e
    unfold handlePlanFromContexts
    repeat' split
    all_goals first | rfl | simp_all [getContext, statsCore]
  · intro a r
    cases hv : validatePlanRequest a <;> cases r <;>
      simp [handlePlanFromContexts, hv, errResult, okResult]
  · intro a r
    unfold handleExportContexts
    repeat' split
    all_goals exact ⟨_, rfl⟩
  · intro a e
    unfold handleExportContexts
    repeat' split
    all_goals first | rfl | simp_all [getContext, statsCore]
  · intro a r
    cases hv : validateExportRequest a <;> cases r <;>
      simp [handleExportContexts, hv, errResult, okResult]
  · intro a nowMs r
    unfold handleGetRawUrl
    repeat' split
    all_goals exact ⟨_, rfl⟩
  · intro a nowMs e
    unfold handleGetRawUrl
    repeat' split
    all_goals first | rfl | simp_all [getContext, statsCore]
  · intro a nowMs r
    cases hv : validateContextId a.context_id <;> cases r <;>
      simp [handleGetRawUrl, hv, errResult, okResult]
  · intro a r
    unfold handleGetContextStats
    repeat' split
    all_goals exact ⟨_, rfl⟩
  · intro a e
    unfold handleGetContextStats
    repeat' split
    all_goals first | rfl | simp_all [getContext, statsCore]
  · intro a r
    cases hs : statsCore a r <;>
      simp [handleGetContextStats, hs, errResult, okResult]

/-- Claim C6, amended: the tools/call dispatch answers a falsy tool name
(absent params, absent name, or the empty string) with code -32602; a truthy
name with no entry in the handler table with code -32601 carrying the
attempted name; and for a registered name it invokes the handler, returning
its result, or the message of an escaped exception under code -32603. -/
theorem c6_amended :
    (∀ (invoke : String → Unit → Except String ToolResult) (req : RpcRequest Unit),
      req.method = "tools/call" →
      handleMCPRequest invoke req = dispatchToolsCall invoke req.id req.params)
    ∧ (∀ (invoke : String → Unit → Except String ToolResult) (requestId : Option Int)
        (params : Option (RpcParams Unit)),
        jsStrTruthy (params.bind fun p => p.name) = false →
        dispatchToolsCall invoke requestId params =
          .message requestId (.rpcError (-32602) "Missing tool name"))
    ∧ (∀ (invoke : String → Unit → Except String ToolResult) (requestId : Option Int)
        (params : Option (RpcParams Unit)) (n : String),
        (params.bind fun p => p.name) = some n → n ≠ "" →
        toolNames.contains n = false →
        dispatchToolsCall invoke requestId params =
          .message requestId (.rpcError (-32601) ("Tool not found: " ++ n)))
    ∧ (∀ (invoke : String → Unit → Except String ToolResult) (requestId : Option Int)
        (params : Option (RpcParams Unit)) (n : String) (r : ToolResult),
        (params.bind fun p => p.name) = some n →
        toolNames.contains n = true →
        invoke n ((params.bind fun p => p.arguments).getD ()) = .ok r →
        dispatchToolsCall invoke requestId params = .message requestId (.callResult r))
    ∧ (∀ (invoke : String → Unit → Except String ToolResult) (requestId : Option Int)
        (params : Option (RpcParams Unit)) (n : String) (msg : String),
        (params.bind fun p => p.name) = some n →
        toolNames.contains n = true →
        invoke n ((params.bind fun p => p.arguments).getD ()) = .error msg →
        dispatchToolsCall invoke requestId params =
          .message requestId (.rpcError (-32603) msg)) := by
  refine ⟨?_, ?_, ?_, ?_, ?_⟩
  · intro invoke req hm
    rcases req with ⟨i, m, ps⟩
    simp only at hm
    subst hm
    rfl
  · intro invoke requestId params h
    simp [dispatchToolsCall, h]
  · intro invoke requestId params n hn hne hc
    have hb : (n == "") = false := beq_eq_false_iff_ne.mpr hne
    simp at hc
    simp [dispatchToolsCall, hn, jsStrTruthy, hb, hne, hc]
  · intro invoke requestId params n r hn hc hi
    have hne : n ≠ "" := by
      intro he
      subst he
      simp [toolNames] at hc
    have hb : (n == "") = false := beq_eq_false_iff_ne.mpr hne
    simp at hc
    simp [dispatchToolsCall, hn, jsStrTruthy, hb, hne, hc, hi]
  · intro invoke requestId params n msg hn hc hi
    have hne : n ≠ "" := by
      intro he
      subst he
      simp [toolNames] at hc
    have hb : (n == "") = false := beq_eq_false_iff_ne.mpr hne
    simp at hc
    simp [dispatchToolsCall, hn, jsStrTruthy, hb, hne, hc, hi]

/-- Claim C6, witness for the amended theorem: concrete dispatches for a
missing name, an unknown name, and a registered name with both handler
outcomes. -/
theorem c6_amended_witness :
    handleMCPRequest (fun _ _ => .ok (okResult "w"))
        ({ id := some 1, method := "tools/call", params := none } : RpcRequest Unit) =
      dispatchToolsCall (fun _ _ => .ok (okResult "w")) (some 1)
        (none : Option (RpcParams Unit)) ∧
    dispatchToolsCall (fun _ _ => .ok (okResult "w")) (some 1)
        (none : Option (RpcParams Unit)) =
      .message (some 1) (.rpcError (-32602) "Missing tool name") ∧
    dispatchToolsCall (fun _ _ => .ok (okResult "w")) (some 2)
        (some ({ name := some "frobnicate" } : RpcParams Unit)) =
      .message (some 2) (.rpcError (-32601) ("Tool not found: " ++ "frobnicate")) ∧
    dispatchToolsCall (fun _ _ => .ok (okResult "w")) (some 3)
        (some ({ name := some "list_contexts" } : RpcParams Unit)) =
      .message (some 3) (.callResult (okResult "w")) ∧
    dispatchToolsCall (fun _ _ => .error "boom") (some 4)
        (some ({ name := some "list_contexts" } : RpcParams Unit)) =
      .message (some 4) (.rpcError (-32603) "boom") :=
  ⟨c6_amended.1 _ _ rfl,
   c6_amended.2.1 _ _ _ rfl,
   c6_amended.2.2.1 _ _ _ "frobnicate" rfl (by decide) (by decide),
   c6_amended.2.2.2.1 _ _ _ "list_contexts" (okResult "w") rfl (by decide) rfl,
   c6_amended.2.2.2.2 _ _ _ "list_contexts" "boom" rfl (by decide) rfl⟩

/-- Claim C7, amended: update validation requires a present, truthy string
context_id and type-checks whichever mutable fields are present (title must
not be whitespace-only when given), but it does not require any mutable field
to be present: an argument set carrying only context_id passes validation and
the handler proceeds to the remote update call with an empty payload. -/
theorem c7_amended :
    (∀ args : UpdateContextArgs,
      args.context_id = none ∨ args.context_id = some "" →
      updateContextAction args = .rejected "context_id is required and must be a string")
    ∧ (∀ cid : String, cid ≠ "" →
        updateContextAction { context_id := some cid } = .callRemote cid {})
    ∧ (∀ cid t : String, cid ≠ "" → jsTrim t = "" →
        updateContextAction { context_id := some cid, title := some t } =
          .rejected "title must be a non-empty string") := by
  refine ⟨?_, ?_, ?_⟩
  · intro args h
    rcases h with h | h <;> simp [updateContextAction, validateContextId, h]
  · intro cid h
    have hb : (cid == "") = false := beq_eq_false_iff_ne.mpr h
    simp [updateContextAction, validateContextId, validateUpdateContext, hb]
  · intro cid t hc ht
    have hb : (cid == "") = false := beq_eq_false_iff_ne.mpr hc
    simp [updateContextAction, validateContextId, validateUpdateContext, hb, ht]

/-- Claim C7, witness for the amended theorem at concrete inputs. -/
theorem c7_amended_witness :
    updateContextAction ({ context_id := none } : UpdateContextArgs) =
      .rejected "context_id is required and must be a string" ∧
    updateContextAction { context_id := some "ctx-7" } = .callRemote "ctx-7" {} ∧
    updateContextAction { context_id := some "ctx-7", title := some " " } =
      .rejected "title must be a non-empty string" :=
  ⟨c7_amended.1 _ (Or.inl rfl),
   c7_amended.2.1 "ctx-7" (by decide),
   c7_amended.2.2 "ctx-7" " " (by decide) (by decide)⟩

/-- Claim C9: when the arguments pass validation with offset explicitly 0,
the outbound query parameters of listContexts contain no offset key, and
likewise no contain or category key when those were passed as empty strings
(numeric and string filters are serialized only when truthy), while
is_favorite is serialized whenever defined, false included. -/
theorem c9_offset_truthiness :
    ∀ (args : ListArgs) (p : ListParams), validateContextSearch args = .ok p →
      (args.offset = some 0 → ∀ kv ∈ listContextsQuery p, kv.1 ≠ "offset") ∧
      (∀ b : Bool, args.is_favorite = some b →
        ("is_favorite", jsBoolStr b) ∈ listContextsQuery p) ∧
      (args.contain = some "" → ∀ kv ∈ listContextsQuery p, kv.1 ≠ "contain") ∧
      (args.category = some "" → ∀ kv ∈ listContextsQuery p, kv.1 ≠ "category") := by
  intro args p hv
  unfold validateContextSearch at hv
  split at hv
  · exact absurd hv (by simp)
  · split at hv
    · exact absurd hv (by simp)
    · injection hv with hp
      subst hp
      refine ⟨?_, ?_, ?_, ?_⟩
      · intro hoff kv hkv
        rw [hoff] at hkv
        simp only [listContextsQuery, List.mem_append] at hkv
        rcases hkv with ((((((h | h) | h) | h) | h) | h) | h) | h
        · rw [appendNumParam_fst h]; decide
        · simp [appendNumParam] at h
        · rw [appendStrParam_fst h]; decide
        · rw [appendStrParam_fst h]; decide
        · rw [appendTagsParam_fst h]; decide
        · rw [appendStrParam_fst h]; decide
        · rw [appendStrParam_fst h]; decide
        · rw [appendFavParam_fst h]; decide
      · intro b hb
        rw [hb]
        simp [listContextsQuery, appendFavParam]
      · intro hcon kv hkv
        rw [hcon] at hkv
        simp only [listContextsQuery, List.mem_append] at hkv
        rcases hkv with ((((((h | h) | h) | h) | h) | h) | h) | h
        · rw [appendNumParam_fst h]; decide
        · rw [appendNumParam_fst h]; decide
        · simp [jsStrTruthy, appendStrParam] at h
        · rw [appendStrParam_fst h]; decide
        · rw [appendTagsParam_fst h]; decide
        · rw [appendStrParam_fst h]; decide
        · rw [appendStrParam_fst h]; decide
        · rw [appendFavParam_fst h]; decide
      · intro hcat kv hkv
        rw [hcat] at hkv
        simp only [listContextsQuery, List.mem_append] at hkv
        rcases hkv with ((((((h | h) | h) | h) | h) | h) | h) | h
        · rw [appendNumParam_fst h]; decide
        · rw [appendNumParam_fst h]; decide
        · rw [appendStrParam_fst h]; decide
        · simp [jsStrTruthy, appendStrParam] at h
        · rw [appendTagsParam_fst h]; decide
        · rw [appendStrParam_fst h]; decide
        · rw [appendStrParam_fst h]; decide
        · rw [appendFavParam_fst h]; decide

/-- Claim C9, witness: arguments with offset 0 and is_favorite false
validate, the query carries no offset key, and carries is_favorite=false. -/
theorem c9_offset_truthiness_witness :
    (∀ kv ∈ listContextsQuery { offset := some 0, is_favorite := some false },
      kv.1 ≠ "offset") ∧
    ("is_favorite", jsBoolStr false) ∈
      listContextsQuery { offset := some 0, is_favorite := some false } :=
  ⟨(c9_offset_truthiness { offset := some 0, is_favorite := some false }
      { offset := some 0, is_favorite := some false } rfl).1 rfl,
   (c9_offset_truthiness { offset := some 0, is_favorite := some false }
      { offset := some 0, is_favorite := some false } rfl).2.1 false rfl⟩

/-- Claim C10: with group_by equal to date the statistics object of the
returned payload is empty (no branch aggregates by date); the date_range
argument is only echoed into the payload, defaulting to 30d, and changing it
changes nothing but that echoed field; and the fetch parameters passed to the
list operation are the constant limit of 100, independent of every argument. -/
theorem c10_stats_date_grouping :
    (∀ (dr : Option String) (items : List ConvContext) (tc lim off : Option Nat),
      statsCore { date_range := dr, group_by := some "date" }
          (.ok (.envelope (some items) tc lim off)) =
        .success { total_contexts := tc, date_range := dr.getD "30d",
                   group_by := "date", statistics := [],
                   total_words := totalWords items,
                   avg_words_per_context := avgWords items })
    ∧ (∀ (args : StatsArgs) (dr : Option String) (remote : Except String ListResponse),
        statsCore { date_range := dr, group_by := args.group_by } remote =
          setStatsDateRange (dr.getD "30d") (statsCore args remote))
    ∧ (∀ a : StatsArgs, listContextsQuery (statsFetchParams a) = [("limit", "100")]) := by
  refine ⟨?_, ?_, ?_⟩
  · intro dr items tc lim off
    rfl
  · intro args dr remote
    cases remote with
    | error e => rfl
    | ok resp =>
      cases resp with
      | bare l => rfl
      | envelope items tc lim off =>
        cases items with
        | none => rfl
        | some l => rfl
  · intro a
    rfl

end Convolut
